import Mathlib

/-!
Verification of controltowerlib (schubergphilis/controltowerlib) against its
natural-language specification.  The relevant parts of
`controltowerlib/controltowerlib.py` are shallowly embedded below: JSON
response bodies become an inductive `JVal`, dictionaries become association
lists, HTTP responses become a record with an `ok` flag, a text and a decoded
body, exceptions become an `Except` over the library's exception taxonomy, and
stateful caches (instance attributes, `lru_cache`) become explicit
cache-in/cache-out parameters.  Network effects are made observable as
explicit event traces or fetched-flags so that "no call is issued" becomes a
provable statement.
-/

set_option autoImplicit false

namespace ControlTowerLib

/-- Minimal model of the JSON values moved between the library and the
console API: strings, arrays and objects (objects as association lists, keys
unique as in Python dicts). -/
inductive JVal where
  | str : String → JVal
  | arr : List JVal → JVal
  | obj : List (String × JVal) → JVal

/-- Models Python `value == some_string` for a possibly-absent JSON value: true
exactly when the value is present, is a string and equals `t` (comparing
`None` or a non-string value with a string is `False` in Python). -/
def optEqStr : Option JVal → String → Bool
  | some (.str s), t => s == t
  | _, _ => false

/-- Models Python `dict.get(key)`: the value stored under `key`, if any. -/
def lookupField : List (String × JVal) → String → Option JVal
  | [], _ => none
  | (k, v) :: rest, key => if k = key then some v else lookupField rest key

/-- Models Python truthiness of a JSON value: a string, array or object is truthy
iff it is non-empty. -/
def JVal.truthy : JVal → Bool
  | .str s => !s.isEmpty
  | .arr xs => !xs.isEmpty
  | .obj fs => !fs.isEmpty

/-- Models Python `dict.update` with a single key on an association list with unique keys:
replace the value under `key` if present, append the pair otherwise. -/
def updateField : List (String × JVal) → String → JVal → List (String × JVal)
  | [], key, v => [(key, v)]
  | (k, w) :: rest, key, v =>
      if k = key then (key, v) :: rest else (k, w) :: updateField rest key v

/-- A response of `requests.Session.post`: `ok` is `response.ok`
(2xx status), `text` is `response.text`, `body` is `response.json()`. -/
structure HttpResponse where
  ok : Bool
  text : String
  body : List (String × JVal)

/-- The exceptions of `controltowerlibexceptions` raised by the embedded code,
plus Python's built-in `ValueError` (raised by `_get_partial_response`). -/
inductive PyErr where
  | controlTowerNotDeployed
  | controlTowerBusy
  | serviceCallFailed (target : String)
  | valueError (text : String)
  | ouCreating
  | clientError (message : String)
  | noSuspendedOU (name : String)
deriving DecidableEq, Repr

/-! ## Availability gate (`ControlTower.validate_availability`) -/

/-- The two predicate reads the `validate_availability` decorator performs,
in the order it performs them. -/
inductive GateCheck where
  | deployedCheck
  | busyCheck
deriving DecidableEq, Repr

/-- Outcome of running a gated operation: the result (or gate exception),
the calls the wrapped body actually issued, and the predicate reads the gate
performed in order. -/
structure GateOutcome (α : Type) where
  result : Except PyErr α
  bodyCalls : List String
  checks : List GateCheck

/-- Embeds `ControlTower.validate_availability`: the decorator wraps a method body
(modelled as the list of calls it would issue together with its return
value).  It reads `is_deployed` first; if false it raises
`ControlTowerNotDeployed` without reading `busy` and without running the
body.  Otherwise it reads `busy`; if true it raises `ControlTowerBusy`
without running the body.  Only when both checks pass does the body run. -/
def validate_availability {α : Type} (is_deployed busy : Bool)
    (body : List String × α) : GateOutcome α :=
  if !is_deployed then
    { result := .error .controlTowerNotDeployed, bodyCalls := [], checks := [.deployedCheck] }
  else if busy then
    { result := .error .controlTowerBusy, bodyCalls := [],
      checks := [.deployedCheck, .busyCheck] }
  else
    { result := .ok body.2, bodyCalls := body.1,
      checks := [.deployedCheck, .busyCheck] }

/-- C1: when `is_deployed` is false every gated operation raises
`ControlTowerNotDeployed` with no body call and without even reading `busy`;
when `is_deployed` is true and `busy` is true it raises `ControlTowerBusy`
with no body call; the body runs exactly when both checks pass; and the
`is_deployed` read precedes the `busy` read in every run of the gate. -/
theorem c1_gate_behavior {α : Type} (d b : Bool) (body : List String × α) :
    (d = false →
      validate_availability d b body =
        { result := .error .controlTowerNotDeployed, bodyCalls := [],
          checks := [.deployedCheck] }) ∧
    (d = true → b = true →
      validate_availability d b body =
        { result := .error .controlTowerBusy, bodyCalls := [],
          checks := [.deployedCheck, .busyCheck] }) ∧
    (d = true → b = false →
      validate_availability d b body =
        { result := .ok body.2, bodyCalls := body.1,
          checks := [.deployedCheck, .busyCheck] }) ∧
    (validate_availability d b body).checks.head? = some .deployedCheck := by
  cases d <;> cases b <;> simp [validate_availability]

/-- Concrete instantiation of `c1_gate_behavior`: with the control tower not
deployed, a gated operation that would issue one call raises
`ControlTowerNotDeployed` and issues nothing. -/
theorem c1_gate_behavior_witness :
    validate_availability false true (["listManagedAccounts"], (0 : Nat)) =
      { result := .error .controlTowerNotDeployed, bodyCalls := [],
        checks := [.deployedCheck] } :=
  (c1_gate_behavior false true (["listManagedAccounts"], (0 : Nat))).1 rfl

/-! ## Landing-zone status and the busy predicate
(`ControlTower._get_status`, `status`, `busy`, `get_changing_accounts`) -/

/-- The body of `ControlTower._get_status` once the `getLandingZoneStatus`
response is in hand: a non-2xx response is logged and turned into an empty
dict `{}` (no exception), a 2xx response yields the decoded body. -/
def get_status_fetch (resp : HttpResponse) : List (String × JVal) :=
  if resp.ok then resp.body else []

/-- Embeds `ControlTower._get_status` as decorated with `@lru_cache(maxsize=2)`:
the method takes no argument beyond `self`, so within one instance the first
call stores its result and every later call returns the stored result
without touching the network.  The triple returned is (value, new cache
state, whether a fresh fetch happened). -/
def get_status (cache : Option (List (String × JVal))) (resp : HttpResponse) :
    List (String × JVal) × Option (List (String × JVal)) × Bool :=
  match cache with
  | some v => (v, some v, false)
  | none => (get_status_fetch resp, some (get_status_fetch resp), true)

/-- One record of `service_catalog.search_provisioned_products()`:
the fields `Type`, `Status` and `PhysicalId` that
`get_changing_accounts` reads. -/
structure ProvisionedProduct where
  ptype : String
  pstatus : String
  physicalId : String
deriving DecidableEq, Repr

/-- Embeds `ControlTower.get_changing_accounts`: freshly searches the provisioned
products and keeps the ids of those of type `CONTROL_TOWER_ACCOUNT` whose
status is `UNDER_CHANGE`.  Takes the current product list (the fresh search
result) as input — there is no cache in the source. -/
def get_changing_accounts (products : List ProvisionedProduct) : List String :=
  (products.filter fun p =>
      p.ptype == "CONTROL_TOWER_ACCOUNT" && p.pstatus == "UNDER_CHANGE").map
    (fun p => p.physicalId)

/-- Embeds `ControlTower.busy`:
`any([self.status == 'IN_PROGRESS', self.get_changing_accounts()])`.
`self.status` reads `LandingZoneStatus` out of `self._get_status()`, which
goes through the `lru_cache`; `get_changing_accounts` is recomputed from the
fresh product list.  Returns (value, new status cache, whether a status
fetch happened). -/
def busy (cache : Option (List (String × JVal))) (resp : HttpResponse)
    (products : List ProvisionedProduct) :
    Bool × Option (List (String × JVal)) × Bool :=
  let (st, cache2, fetched) := get_status cache resp
  (optEqStr (lookupField st "LandingZoneStatus") "IN_PROGRESS" ||
      !(get_changing_accounts products).isEmpty,
    cache2, fetched)

/-- C2 (code defect): the landing-zone status feeding `busy` IS cached.  At
the concrete run below the first `busy` check fetches `IN_PROGRESS` and
returns true; by the second check the backend would answer `SUCCEEDED` and
no account is under change, yet the second check performs no fetch (its
fetched-flag is false) and still returns true, while a fresh evaluation of
the same code at that moment would return false.  This refutes "every
evaluation of busy recomputes its value by freshly fetching the landing-zone
status". -/
theorem c2_busy_status_is_cached :
    (busy none ⟨true, "", [("LandingZoneStatus", .str "IN_PROGRESS")]⟩ []).1 = true ∧
    (busy (some [("LandingZoneStatus", .str "IN_PROGRESS")])
        ⟨true, "", [("LandingZoneStatus", .str "SUCCEEDED")]⟩ []) =
      (true, some [("LandingZoneStatus", .str "IN_PROGRESS")], false) ∧
    (busy none ⟨true, "", [("LandingZoneStatus", .str "SUCCEEDED")]⟩ []).1 = false := by
  refine ⟨rfl, ?_, rfl⟩
  rfl

/-- C10: a non-2xx `getLandingZoneStatus` response makes `_get_status`
return the empty record `{}` instead of raising, so `LandingZoneStatus` is
absent and `busy` reduces to "some account is `UNDER_CHANGE`". -/
theorem c10_failed_status_fetch_empty (resp : HttpResponse)
    (products : List ProvisionedProduct) (h : resp.ok = false) :
    get_status_fetch resp = [] ∧
    (busy none resp products).1 = !(get_changing_accounts products).isEmpty := by
  have hb : get_status_fetch resp = [] := by simp [get_status_fetch, h]
  refine ⟨hb, ?_⟩
  simp [busy, get_status, hb, lookupField, optEqStr]

/-- Concrete instantiation of `c10_failed_status_fetch_empty`: a 500-status
fetch plus one account under change makes `busy` true purely through the
changing-accounts leg. -/
theorem c10_failed_status_fetch_empty_witness :
    get_status_fetch ⟨false, "err", [("LandingZoneStatus", .str "IN_PROGRESS")]⟩ = [] ∧
    (busy none ⟨false, "err", [("LandingZoneStatus", .str "IN_PROGRESS")]⟩
        [⟨"CONTROL_TOWER_ACCOUNT", "UNDER_CHANGE", "111111111111"⟩]).1 =
      !(get_changing_accounts
          [⟨"CONTROL_TOWER_ACCOUNT", "UNDER_CHANGE", "111111111111"⟩]).isEmpty :=
  c10_failed_status_fetch_empty
    ⟨false, "err", [("LandingZoneStatus", .str "IN_PROGRESS")]⟩
    [⟨"CONTROL_TOWER_ACCOUNT", "UNDER_CHANGE", "111111111111"⟩] rfl

/-! ## Deployment predicate (`ControlTower.is_deployed`) -/

/-- Embeds `ControlTower.is_deployed`.  The instance attribute `_is_deployed`
starts as `None`; the property body runs under `if not self._is_deployed:`,
so it re-queries whenever the stored value is `None` **or** `False` — only a
stored `True` short-circuits.  On a 2xx response the stored value becomes
`LandingZoneStatus != 'NOT_STARTED'`; a non-2xx response raises
`ServiceCallFailed`.  The triple returned on success is (value, new cache
state, whether a status query happened). -/
def is_deployed (cache : Option Bool) (resp : HttpResponse) :
    Except PyErr (Bool × Option Bool × Bool) :=
  match cache with
  | some true => .ok (true, some true, false)
  | _ =>
      if resp.ok then
        let v := !(optEqStr (lookupField resp.body "LandingZoneStatus") "NOT_STARTED")
        .ok (v, some v, true)
      else .error (.serviceCallFailed "getLandingZoneStatus")

/-- C7 counterexample: with the landing zone in `NOT_STARTED`, the first
`is_deployed` check queries the status and resolves to false, and the
second check — the stored value being `False`, hence falsy — queries the
status AGAIN (its fetched-flag is true).  This refutes "resolved by querying
landing-zone status at most once per instance lifetime and cached
thereafter". -/
theorem c7_false_result_not_cached :
    is_deployed none ⟨true, "", [("LandingZoneStatus", .str "NOT_STARTED")]⟩ =
      .ok (false, some false, true) ∧
    is_deployed (some false) ⟨true, "", [("LandingZoneStatus", .str "NOT_STARTED")]⟩ =
      .ok (false, some false, true) := by
  exact ⟨rfl, rfl⟩

/-- C7 amended: `is_deployed` caches only a `true` resolution — once
resolved true, every later check returns the cached true without a further
status query; while the stored value is absent or `false` each check
re-queries, and each query resolves to false exactly when the returned
landing-zone status equals `NOT_STARTED`. -/
theorem c7_deployed_cached_only_when_true (cache : Option Bool)
    (resp : HttpResponse) (hok : resp.ok = true) :
    is_deployed (some true) resp = .ok (true, some true, false) ∧
    (cache ≠ some true →
      is_deployed cache resp =
        .ok (!(optEqStr (lookupField resp.body "LandingZoneStatus") "NOT_STARTED"),
          some (!(optEqStr (lookupField resp.body "LandingZoneStatus") "NOT_STARTED")),
          true)) ∧
    (cache ≠ some true →
      ((is_deployed cache resp =
          .ok (false, some false, true)) ↔
        optEqStr (lookupField resp.body "LandingZoneStatus") "NOT_STARTED" = true)) := by
  refine ⟨rfl, ?_, ?_⟩
  · intro hc
    match cache with
    | none => simp [is_deployed, hok]
    | some false => simp [is_deployed, hok]
    | some true => exact absurd rfl hc
  · intro hc
    match cache with
    | none =>
        simp only [is_deployed, hok, if_true]
        cases hval : optEqStr (lookupField resp.body "LandingZoneStatus") "NOT_STARTED" <;>
          simp [hval]
    | some false =>
        simp only [is_deployed, hok, if_true]
        cases hval : optEqStr (lookupField resp.body "LandingZoneStatus") "NOT_STARTED" <;>
          simp [hval]
    | some true => exact absurd rfl hc

/-- Concrete instantiation of `c7_deployed_cached_only_when_true` at a
`NOT_STARTED` response with an empty cache. -/
theorem c7_deployed_cached_only_when_true_witness :
    is_deployed (some true) ⟨true, "", [("LandingZoneStatus", .str "NOT_STARTED")]⟩ =
      .ok (true, some true, false) :=
  (c7_deployed_cached_only_when_true none
    ⟨true, "", [("LandingZoneStatus", .str "NOT_STARTED")]⟩ rfl).1

/-! ## Account decommissioning (`ControlTowerAccount.delete`) -/

/-- An organizational-unit record: the `id` and `name` the delete workflow
reads (`ControlTowerOU.id` / `.name`). -/
structure OURec where
  ouId : String
  ouName : String
deriving DecidableEq, Repr

/-- Embeds `ControlTower.get_organizational_unit_by_name`: first managed OU whose
name matches, `None` otherwise (the generator `next(..., None)`). -/
def get_organizational_unit_by_name (ous : List OURec) (name : String) :
    Option OURec :=
  ous.find? fun ou => ou.ouName == name

/-- The externally observable calls `ControlTowerAccount.delete` makes, in
the order it makes them. -/
inductive DelEvent where
  | lookupSuspendedOU
  | terminateProduct
  | busyCheck
  | sleepPoll
  | moveAccount (accountId sourceParentId destParentId : String)
  | attachSCP (name : String)
  | detachSCP (name : String)
deriving DecidableEq, Repr

/-- The `while self.control_tower.busy: sleep(...)` loop of `delete`,
driven by the successive values the busy predicate returns: each true value
is one check followed by a sleep, the first false value is the final check
that exits the loop.  (If the supplied value list runs out while still busy
the real loop would keep polling; the theorems below assume the predicate
eventually returns false.) -/
def busyPoll : List Bool → List DelEvent
  | [] => []
  | b :: rest =>
      if b then .busyCheck :: .sleepPoll :: busyPoll rest else [.busyCheck]

/-- Whether the busy-value list makes the poll loop exit (contains a
false). -/
def busyPollDone : List Bool → Bool
  | [] => false
  | b :: rest => if b then busyPollDone rest else true

/-- Embeds `ControlTowerAccount.delete`: look up the suspended OU by the
configured name; if absent raise `NoSuspendedOU` having issued nothing
else; otherwise terminate the provisioned product, poll `busy` until false,
move the account from the root OU to the suspended OU, attach the
suspended-OU-named policy and finally detach `FullAWSAccess`.  Returns the
result together with the ordered trace of calls issued. -/
def delete (ous : List OURec) (root_ou : OURec) (busyValues : List Bool)
    (accountId suspended_ou_name : String) :
    Except PyErr Unit × List DelEvent :=
  match get_organizational_unit_by_name ous suspended_ou_name with
  | none => (.error (.noSuspendedOU suspended_ou_name), [.lookupSuspendedOU])
  | some suspended_ou =>
      (.ok (),
        .lookupSuspendedOU :: .terminateProduct ::
          (busyPoll busyValues ++
            [.moveAccount accountId root_ou.ouId suspended_ou.ouId,
             .attachSCP suspended_ou_name,
             .detachSCP "FullAWSAccess"]))

/-- Every event the busy-poll loop emits is a busy check or a sleep. -/
theorem busyPoll_events (bs : List Bool) :
    ∀ e ∈ busyPoll bs, e = DelEvent.busyCheck ∨ e = DelEvent.sleepPoll := by
  induction bs with
  | nil => intro e he; cases he
  | cons b rest ih =>
      intro e he
      by_cases hb : b = true
      · simp [busyPoll, hb] at he
        rcases he with h | h | h
        · exact Or.inl h
        · exact Or.inr h
        · exact ih e h
      · simp [busyPoll, Bool.eq_false_iff.mpr hb] at he
        exact Or.inl he

/-- C3: if no OU with the configured suspended name exists, `delete` raises
`NoSuspendedOU` having issued only the lookup — no terminate, move, attach
or detach; otherwise (and provided the busy predicate eventually returns
false) the trace is exactly lookup, terminate, the busy poll (made of
checks and sleeps only), move from the root OU to the suspended OU, attach
of the policy named after the suspended OU, detach of `FullAWSAccess`, in
that order. -/
theorem c3_delete_ordering (ous : List OURec) (root_ou : OURec)
    (busyValues : List Bool) (accountId suspended_ou_name : String) :
    (get_organizational_unit_by_name ous suspended_ou_name = none →
      delete ous root_ou busyValues accountId suspended_ou_name =
        (.error (.noSuspendedOU suspended_ou_name), [.lookupSuspendedOU])) ∧
    (∀ suspended_ou,
      get_organizational_unit_by_name ous suspended_ou_name = some suspended_ou →
      delete ous root_ou busyValues accountId suspended_ou_name =
        (.ok (),
          .lookupSuspendedOU :: .terminateProduct ::
            (busyPoll busyValues ++
              [.moveAccount accountId root_ou.ouId suspended_ou.ouId,
               .attachSCP suspended_ou_name,
               .detachSCP "FullAWSAccess"])) ∧
      ∀ e ∈ busyPoll busyValues,
        e = DelEvent.busyCheck ∨ e = DelEvent.sleepPoll) := by
  constructor
  · intro h
    simp [delete, h]
  · intro suspended_ou h
    refine ⟨by simp [delete, h], busyPoll_events busyValues⟩

/-- Concrete instantiation of `c3_delete_ordering`: with a `Suspended` OU
present and the control plane busy for two polls, the trace is exactly
lookup, terminate, three busy checks with two sleeps, move, attach, detach. -/
theorem c3_delete_ordering_witness :
    delete [⟨"ou-sus", "Suspended"⟩] ⟨"ou-root", "Root"⟩ [true, true, false]
        "111111111111" "Suspended" =
      (.ok (),
        .lookupSuspendedOU :: .terminateProduct ::
          (busyPoll [true, true, false] ++
            [.moveAccount "111111111111" "ou-root" "ou-sus",
             .attachSCP "Suspended",
             .detachSCP "FullAWSAccess"])) :=
  ((c3_delete_ordering [⟨"ou-sus", "Suspended"⟩] ⟨"ou-root", "Root"⟩
      [true, true, false] "111111111111" "Suspended").2
    ⟨"ou-sus", "Suspended"⟩ rfl).1

/-! ## OU registration (`ControlTower.register_organizations_ou`) -/

/-- The calls `register_organizations_ou` can issue, in order: the managed-OU
lookup, the Organizations-OU lookup, the `manageOrganizationalUnit`
registration call. -/
inductive RegEvent where
  | lookupManagedOU
  | lookupOrgOU
  | registerCall
deriving DecidableEq, Repr

/-- The world `register_organizations_ou` runs against: the control-plane
managed OU list, the Organizations OU list, and whether the
`manageOrganizationalUnit` console call would succeed. -/
structure OrgWorld where
  managed : List OURec
  orgs : List OURec
  registerOk : Bool
deriving DecidableEq, Repr

/-- Embeds `ControlTower.get_organizations_ou_by_name`: first Organizations OU
whose name matches, `None` otherwise. -/
def get_organizations_ou_by_name (w : OrgWorld) (name : String) : Option OURec :=
  w.orgs.find? fun ou => ou.ouName == name

/-- Embeds `ControlTower.register_organizations_ou`: if an OU with this name is
already managed, log and return `True` without registering; if the name is
unknown to Organizations, return `False`; otherwise issue the
`manageOrganizationalUnit` call (`_register_org_ou_in_control_tower`), on
success sleep the settling time, after which the OU is managed.  Returns
(result, new world, trace). -/
def register_organizations_ou (w : OrgWorld) (name : String) :
    Bool × OrgWorld × List RegEvent :=
  match get_organizational_unit_by_name w.managed name with
  | some _ => (true, w, [.lookupManagedOU])
  | none =>
      match get_organizations_ou_by_name w name with
      | none => (false, w, [.lookupManagedOU, .lookupOrgOU])
      | some org_ou =>
          if w.registerOk then
            (true, { w with managed := w.managed ++ [org_ou] },
              [.lookupManagedOU, .lookupOrgOU, .registerCall])
          else (false, w, [.lookupManagedOU, .lookupOrgOU, .registerCall])

/-- A name found by `find?` on name equality has that name. -/
theorem find?_name_eq (ous : List OURec) (name : String) (ou : OURec)
    (h : ous.find? (fun o => o.ouName == name) = some ou) : ou.ouName = name := by
  have := List.find?_some h
  simpa using this

/-- A `find?` over an appended list skips a block on which it fails. -/
theorem find?_append_of_none {α : Type} (p : α → Bool) (l1 l2 : List α)
    (h : l1.find? p = none) : (l1 ++ l2).find? p = l2.find? p := by
  induction l1 with
  | nil => simp
  | cons a l ih =>
      cases hpa : p a with
      | true => simp [List.find?, hpa] at h
      | false =>
          simp only [List.find?, hpa] at h
          simpa [List.find?, hpa] using ih h

/-- C9: registering an already-managed OU name is an idempotent no-op
success — the call returns `True`, changes nothing and issues no
registration call; and after any successful registration, registering the
same name again returns `True`, changes nothing and issues no registration
call, so registering twice has the same effect as registering once. -/
theorem c9_register_idempotent (w : OrgWorld) (name : String) :
    ((get_organizational_unit_by_name w.managed name).isSome = true →
      register_organizations_ou w name = (true, w, [.lookupManagedOU])) ∧
    ((register_organizations_ou w name).1 = true →
      register_organizations_ou (register_organizations_ou w name).2.1 name =
        (true, (register_organizations_ou w name).2.1, [.lookupManagedOU])) := by
  constructor
  · intro h
    rcases Option.isSome_iff_exists.mp h with ⟨ou, hou⟩
    simp [register_organizations_ou, hou]
  · intro hres
    rcases hfound : get_organizational_unit_by_name w.managed name with _ | ou
    · rcases horg : get_organizations_ou_by_name w name with _ | org_ou
      · exfalso
        simp [register_organizations_ou, hfound, horg] at hres
      · by_cases hok : w.registerOk = true
        · have hname : (org_ou.ouName == name) = true := by
            simpa using find?_name_eq w.orgs name org_ou horg
          have hstep : register_organizations_ou w name =
              (true, { w with managed := w.managed ++ [org_ou] },
                [.lookupManagedOU, .lookupOrgOU, .registerCall]) := by
            simp [register_organizations_ou, hfound, horg, hok]
          rw [hstep]
          have hfind : get_organizational_unit_by_name
              (w.managed ++ [org_ou]) name = some org_ou := by
            unfold get_organizational_unit_by_name at hfound ⊢
            rw [find?_append_of_none _ _ _ hfound]
            simp [List.find?, hname]
          simp [register_organizations_ou, hfind]
        · exfalso
          simp [register_organizations_ou, hfound, horg, hok] at hres
    · have hstep : register_organizations_ou w name = (true, w, [.lookupManagedOU]) := by
        simp [register_organizations_ou, hfound]
      rw [hstep]
      simp [register_organizations_ou, hfound]

/-- Concrete instantiation of `c9_register_idempotent`: with `Workloads`
already managed, registration returns `True`, leaves the world unchanged
and issues only the managed-OU lookup. -/
theorem c9_register_idempotent_witness :
    register_organizations_ou
        ⟨[⟨"ou-1", "Workloads"⟩], [⟨"ou-1", "Workloads"⟩], true⟩ "Workloads" =
      (true, ⟨[⟨"ou-1", "Workloads"⟩], [⟨"ou-1", "Workloads"⟩], true⟩,
        [.lookupManagedOU]) :=
  (c9_register_idempotent
      ⟨[⟨"ou-1", "Workloads"⟩], [⟨"ou-1", "Workloads"⟩], true⟩ "Workloads").1 rfl

/-! ## Creation-race retrier (`ControlTower.create_account`,
`CREATING_ACCOUNT_ERROR_MESSAGE`, the `@retry` decorator) -/

/-- The constant `CREATING_ACCOUNT_ERROR_MESSAGE` of the source. -/
def CREATING_ACCOUNT_ERROR_MESSAGE : String :=
  "Package is in state CREATING, but must be in state AVAILABLE"

/-- Whether `pat` occurs at the start of `s` (on character lists). -/
def startsWithC : List Char → List Char → Bool
  | _, [] => true
  | [], _ :: _ => false
  | a :: s, b :: p => (a == b) && startsWithC s p

/-- Whether `pat` occurs somewhere inside `s` (on character lists). -/
def containsSubC : List Char → List Char → Bool
  | [], pat => pat.isEmpty
  | c :: rest, pat => startsWithC (c :: rest) pat || containsSubC rest pat

/-- Models Python's substring test on strings: substring containment. -/
def strContains (s pat : String) : Bool :=
  containsSubC s.data pat.data

/-- The `except botocore.exceptions.ClientError` handler inside
`create_account`: a provisioning attempt either returns whether the HTTP
status was 200 (`.ok`), or raises a `ClientError` whose message is
inspected — if `CREATING_ACCOUNT_ERROR_MESSAGE in message` the handler
raises `OUCreating`, otherwise the original error is re-raised. -/
def create_account_attempt (outcome : Except String Bool) : Except PyErr Bool :=
  match outcome with
  | .ok success => .ok success
  | .error message =>
      if strContains message CREATING_ACCOUNT_ERROR_MESSAGE then .error .ouCreating
      else .error (.clientError message)

/-- The `@retry(retry_on_exceptions=OUCreating, max_calls_total=7, ...)`
loop: issue the attempt; on `OUCreating` re-issue while the total-call
budget is not exhausted; any other outcome (success or a different
exception) ends the loop immediately.  `attemptIndex` numbers the calls,
`remaining` is the remaining call budget; the pair returned is (final
outcome, total number of calls issued).  The decorator's 60-second retry
window is a wall-clock bound on when retries may be scheduled; it is
abstracted away here, leaving the 7-call budget. -/
def retryGo (stub : Nat → Except String Bool) :
    Nat → Nat → Except PyErr Bool × Nat
  | attemptIndex, 0 => (.error .ouCreating, attemptIndex)
  | attemptIndex, remaining + 1 =>
      match create_account_attempt (stub attemptIndex) with
      | .ok success => (.ok success, attemptIndex + 1)
      | .error .ouCreating =>
          if remaining = 0 then (.error .ouCreating, attemptIndex + 1)
          else retryGo stub (attemptIndex + 1) remaining
      | .error e => (.error e, attemptIndex + 1)

/-- Embeds `ControlTower.create_account` as seen through its retry decorator: the
stub maps each call number to the outcome of that provisioning attempt; the
decorator allows at most 7 calls in total. -/
def create_account (stub : Nat → Except String Bool) : Except PyErr Bool × Nat :=
  retryGo stub 0 7

/-- A matching-error prefix of length `k` followed by a success at call
`idx + k` makes the retry loop succeed after exactly `idx + k + 1` calls,
provided the budget suffices. -/
theorem retryGo_success (stub : Nat → Except String Bool) (k : Nat) :
    ∀ (idx rem : Nat), k < rem →
    (∀ i, i < k → ∃ m, stub (idx + i) = .error m ∧
        strContains m CREATING_ACCOUNT_ERROR_MESSAGE = true) →
    stub (idx + k) = .ok true →
    retryGo stub idx rem = (.ok true, idx + k + 1) := by
  induction k with
  | zero =>
      intro idx rem hrem _ hok
      match rem, hrem with
      | rem' + 1, _ =>
          simp only [retryGo]
          rw [show idx + 0 = idx from rfl] at hok
          rw [hok]
          rfl
  | succ k ih =>
      intro idx rem hrem herr hok
      match rem, hrem with
      | rem' + 1, hrem =>
          obtain ⟨m, hm, hmatch⟩ := herr 0 (Nat.succ_pos k)
          rw [show idx + 0 = idx from rfl] at hm
          have hrem' : k < rem' := Nat.lt_of_succ_lt_succ hrem
          have hrem'pos : rem' ≠ 0 := Nat.pos_iff_ne_zero.mp (Nat.lt_of_le_of_lt (Nat.zero_le k) hrem')
          simp only [retryGo, hm, create_account_attempt, hmatch, if_true, hrem'pos, if_false]
          have herr' : ∀ i, i < k → ∃ m, stub (idx + 1 + i) = .error m ∧
              strContains m CREATING_ACCOUNT_ERROR_MESSAGE = true := by
            intro i hi
            have := herr (i + 1) (Nat.succ_lt_succ hi)
            rwa [show idx + (i + 1) = idx + 1 + i by omega] at this
          have hok' : stub (idx + 1 + k) = .ok true := by
            rwa [show idx + (k + 1) = idx + 1 + k by omega] at hok
          have := ih (idx + 1) rem' hrem' herr' hok'
          rw [this]
          congr 1
          omega

/-- A client error whose message does not contain the creating-message ends
the retry loop on the very first call. -/
theorem retryGo_nonmatching (stub : Nat → Except String Bool) (m : String)
    (hm : stub 0 = .error m)
    (hnomatch : strContains m CREATING_ACCOUNT_ERROR_MESSAGE = false) :
    create_account stub = (.error (.clientError m), 1) := by
  simp [create_account, retryGo, hm, create_account_attempt, hnomatch]

/-- C4 amended: the provisioning attempt raises `OUCreating` whenever the
client error's message CONTAINS `CREATING_ACCOUNT_ERROR_MESSAGE` (the exact
message included), and only that condition is retried, up to 7 calls in
total; if the first `k < 7` attempts all raise containing-messages and
attempt `k` succeeds then the whole call succeeds after exactly `k + 1`
calls; a client error whose message does not contain the creating-message
propagates after exactly one call with zero retries. -/
theorem c4_retry_on_containing_message (stub : Nat → Except String Bool)
    (k : Nat) (hk : k < 7)
    (herr : ∀ i, i < k → ∃ m, stub i = .error m ∧
        strContains m CREATING_ACCOUNT_ERROR_MESSAGE = true)
    (hok : stub k = .ok true) :
    create_account stub = (.ok true, k + 1) ∧
    (∀ (stub2 : Nat → Except String Bool) (m : String),
      stub2 0 = .error m →
      strContains m CREATING_ACCOUNT_ERROR_MESSAGE = false →
      create_account stub2 = (.error (.clientError m), 1)) ∧
    (∀ m, strContains m CREATING_ACCOUNT_ERROR_MESSAGE = true →
      create_account_attempt (.error m) = .error .ouCreating) := by
  refine ⟨?_, ?_, ?_⟩
  · have herr' : ∀ i, i < k → ∃ m, stub (0 + i) = .error m ∧
        strContains m CREATING_ACCOUNT_ERROR_MESSAGE = true := by
      intro i hi
      simpa using herr i hi
    have hok' : stub (0 + k) = .ok true := by simpa using hok
    have := retryGo_success stub k 0 7 hk herr' hok'
    simpa [create_account] using this
  · intro stub2 m hm hnomatch
    exact retryGo_nonmatching stub2 m hm hnomatch
  · intro m hmatch
    simp [create_account_attempt, hmatch]

/-- The spec's own retrier example instantiating
`c4_retry_on_containing_message`: a stub raising the exact creating-error
for the first 4 calls and succeeding on the 5th results in overall success
and exactly 5 calls. -/
theorem c4_retry_on_containing_message_witness :
    create_account
        (fun i => if i < 4 then .error CREATING_ACCOUNT_ERROR_MESSAGE else .ok true) =
      (.ok true, 5) :=
  (c4_retry_on_containing_message
    (fun i => if i < 4 then .error CREATING_ACCOUNT_ERROR_MESSAGE else .ok true)
    4 (by decide)
    (fun i hi => ⟨CREATING_ACCOUNT_ERROR_MESSAGE,
      by simp [hi], by decide⟩)
    (by simp)).1

/-- C4 counterexample: a client error whose message strictly contains (but
does not equal) the creating-message is retried rather than propagated: the
stub below raises such a message on call 0 and succeeds on call 1, and the
code succeeds overall after 2 calls, where the claim ("any client error
with any other message propagates immediately with zero retries") demands
immediate failure after 1 call. -/
theorem c4_exact_match_counterexample :
    ("Something failed: " ++ CREATING_ACCOUNT_ERROR_MESSAGE ++ " for this product"
        ≠ CREATING_ACCOUNT_ERROR_MESSAGE) ∧
    create_account
        (fun i => if i = 0 then
            .error ("Something failed: " ++ CREATING_ACCOUNT_ERROR_MESSAGE ++
              " for this product")
          else .ok true) =
      (.ok true, 2) := by
  constructor
  · decide
  · rfl

/-! ## Paginated result stream (`ControlTower._get_paginated_results`,
`ControlTower._get_partial_response`) -/

/-- The next-page cursor the loop condition `while next_token:` acts on:
the value stored under the cursor field, kept only when truthy (Python's
`dict.get` returns `None` when the field is absent, and a falsy cursor ends
the loop just like an absent one). -/
def nextTokenOf (body : List (String × JVal)) (marker : String) : Option JVal :=
  match lookupField body marker with
  | some v => if v.truthy then some v else none
  | none => none

/-- Embeds `response.json().get(object_group, [])` as iterated by the `for` loop:
the elements of the named array, or nothing when the field is absent. -/
def collectionOf (body : List (String × JVal)) (group : String) : List JVal :=
  match lookupField body group with
  | some (.arr xs) => xs
  | _ => []

/-- What one page contributes to the stream: with no `object_group` the
whole decoded body is yielded once; with an `object_group` each element of
the named collection is yielded in order.  (The optional `object_type`
wrapping applies a constructor to each element and preserves count and
order; it is elided here.) -/
def pageYields (body : List (String × JVal)) (object_group : Option String) :
    List JVal :=
  match object_group with
  | none => [.obj body]
  | some g => collectionOf body g

/-- Embeds `ControlTower._get_partial_response`: post the payload; a non-2xx
response raises `ValueError(response.text)`; a 2xx response returns the
response together with the cursor read from its body. -/
def get_partial_response (resp : HttpResponse) (marker : String) :
    Except PyErr (List (String × JVal) × Option JVal) :=
  if resp.ok then .ok (resp.body, nextTokenOf resp.body marker)
  else .error (.valueError resp.text)

/-- Embeds `ControlTower._get_paginated_results`, fully consumed against a stub
transport that answers the successive page requests with `pages`.  Returns
the yielded values together with the list of request content bodies sent,
in order.  The code mutates `payload` in place, so each follow-up content
body is the previous one with the cursor merged in under the cursor field
name — exactly as modelled by the recursion. -/
def get_paginated_results :
    List HttpResponse → List (String × JVal) → Option String → String →
    Except PyErr (List JVal × List (List (String × JVal)))
  | [], _, _, _ => .ok ([], [])
  | resp :: rest, reqBody, object_group, marker =>
      match get_partial_response resp marker with
      | .error e => .error e
      | .ok (body, tok) =>
          match tok with
          | none => .ok (pageYields body object_group, [reqBody])
          | some t =>
              match get_paginated_results rest (updateField reqBody marker t)
                  object_group marker with
              | .error e => .error e
              | .ok (ys, reqs) =>
                  .ok (pageYields body object_group ++ ys, reqBody :: reqs)

/-- A well-formed paged response sequence: every page 2xx, every page but
the last carrying a truthy cursor, the last lacking one. -/
def wellPaged (marker : String) : List HttpResponse → Bool
  | [] => false
  | [p] => p.ok && (nextTokenOf p.body marker).isNone
  | p :: rest => p.ok && (nextTokenOf p.body marker).isSome && wellPaged marker rest

/-- The cursor values of all pages but the last. -/
def pageTokens (marker : String) : List HttpResponse → List JVal
  | [] => []
  | [_] => []
  | p :: rest => (nextTokenOf p.body marker).getD (.str "") :: pageTokens marker rest

/-- Merging a cursor twice under the same field name keeps only the latest
value, so "previous body with the cursor merged in" equals "original body
with the cursor merged in". -/
theorem updateField_updateField (l : List (String × JVal)) (key : String)
    (v w : JVal) : updateField (updateField l key v) key w = updateField l key w := by
  induction l with
  | nil => simp [updateField]
  | cons p rest ih =>
      obtain ⟨k, u⟩ := p
      by_cases h : k = key
      · simp [updateField, h]
      · simp [updateField, h, ih]

/-- Unfolding of one successful page step of the stream when the page
carries a cursor. -/
theorem paginate_cons_ok (resp : HttpResponse) (rest : List HttpResponse)
    (reqBody : List (String × JVal)) (object_group : Option String)
    (marker : String) (t : JVal) (hok : resp.ok = true)
    (ht : nextTokenOf resp.body marker = some t) :
    get_paginated_results (resp :: rest) reqBody object_group marker =
      match get_paginated_results rest (updateField reqBody marker t)
          object_group marker with
      | .error e => .error e
      | .ok (ys, reqs) =>
          .ok (pageYields resp.body object_group ++ ys, reqBody :: reqs) := by
  simp [get_paginated_results, get_partial_response, hok, ht]

/-- One cursor per page but the last. -/
theorem pageTokens_length (marker : String) :
    ∀ pages : List HttpResponse, wellPaged marker pages = true →
    (pageTokens marker pages).length + 1 = pages.length := by
  intro pages
  induction pages with
  | nil => intro h; simp [wellPaged] at h
  | cons p rest ih =>
      intro h
      cases rest with
      | nil => simp [pageTokens]
      | cons q rest' =>
          simp only [wellPaged, Bool.and_eq_true] at h
          have := ih h.2
          simp [pageTokens, this]

/-- C5 amended: over a well-formed `n`-page response sequence the stream
yields, page by page, exactly the concatenation of each page's
contribution — the named collection's elements when a collection field is
named, the whole decoded body once per page when none is — and issues
exactly `n` requests: the original body first, then one follow-up per
cursor, each equal to the ORIGINAL body with that cursor merged in under
the cursor field name, stopping after the first page whose cursor is
absent. -/
theorem c5_pagination (marker : String) (object_group : Option String) :
    ∀ (pages : List HttpResponse) (reqBody : List (String × JVal)),
    wellPaged marker pages = true →
    get_paginated_results pages reqBody object_group marker =
      .ok ((pages.map fun p => pageYields p.body object_group).flatten,
        reqBody ::
          (pageTokens marker pages).map (fun t => updateField reqBody marker t)) ∧
    (reqBody ::
        (pageTokens marker pages).map (fun t => updateField reqBody marker t)).length
      = pages.length := by
  intro pages
  induction pages with
  | nil => intro reqBody h; simp [wellPaged] at h
  | cons p rest ih =>
      intro reqBody h
      have hlen := pageTokens_length marker (p :: rest) h
      cases rest with
      | nil =>
          simp only [wellPaged, Bool.and_eq_true] at h
          obtain ⟨hok, htok⟩ := h
          have htok' : nextTokenOf p.body marker = none :=
            Option.isNone_iff_eq_none.mp htok
          refine ⟨?_, by simpa using hlen⟩
          simp [get_paginated_results, get_partial_response, hok, htok',
            pageTokens]
      | cons q rest' =>
          simp only [wellPaged, Bool.and_eq_true] at h
          obtain ⟨⟨hok, hsome⟩, hrest⟩ := h
          obtain ⟨t, ht⟩ := Option.isSome_iff_exists.mp hsome
          have hwp : wellPaged marker (q :: rest') = true := by
            simpa [wellPaged] using hrest
          have hrec := (ih (updateField reqBody marker t) hwp).1
          refine ⟨?_, by simpa using hlen⟩
          rw [paginate_cons_ok p (q :: rest') reqBody object_group marker t hok ht,
            hrec]
          simp [pageTokens, ht, updateField_updateField]

/-- The spec's own pagination example instantiating `c5_pagination`: three
2xx pages of one account each, the first two carrying a cursor, the last
not, with the collection field `ManagedAccountList`: the stream yields the
three accounts in page order and issues exactly three requests. -/
theorem c5_pagination_witness :
    get_paginated_results
        ([⟨true, "", [("ManagedAccountList", .arr [.str "acc1"]),
            ("NextToken", .str "t1")]⟩,
          ⟨true, "", [("ManagedAccountList", .arr [.str "acc2"]),
            ("NextToken", .str "t2")]⟩,
          ⟨true, "", [("ManagedAccountList", .arr [.str "acc3"])]⟩] :
          List HttpResponse)
        [("MaxResults", .str "20")] (some "ManagedAccountList") "NextToken" =
      .ok ((([⟨true, "", [("ManagedAccountList", .arr [.str "acc1"]),
              ("NextToken", .str "t1")]⟩,
            ⟨true, "", [("ManagedAccountList", .arr [.str "acc2"]),
              ("NextToken", .str "t2")]⟩,
            ⟨true, "", [("ManagedAccountList", .arr [.str "acc3"])]⟩] :
              List HttpResponse).map
              fun p => pageYields p.body (some "ManagedAccountList")).flatten,
        [("MaxResults", .str "20")] ::
          (pageTokens "NextToken"
              ([⟨true, "", [("ManagedAccountList", .arr [.str "acc1"]),
                  ("NextToken", .str "t1")]⟩,
                ⟨true, "", [("ManagedAccountList", .arr [.str "acc2"]),
                  ("NextToken", .str "t2")]⟩,
                ⟨true, "", [("ManagedAccountList", .arr [.str "acc3"])]⟩] :
                  List HttpResponse)).map
            (fun t => updateField [("MaxResults", .str "20")] "NextToken" t)) :=
  (c5_pagination "NextToken" (some "ManagedAccountList")
      ([⟨true, "", [("ManagedAccountList", .arr [.str "acc1"]),
          ("NextToken", .str "t1")]⟩,
        ⟨true, "", [("ManagedAccountList", .arr [.str "acc2"]),
          ("NextToken", .str "t2")]⟩,
        ⟨true, "", [("ManagedAccountList", .arr [.str "acc3"])]⟩] :
          List HttpResponse)
      [("MaxResults", .str "20")] rfl).1

/-- C5 counterexample: with no collection field named and a first page that
carries a cursor, the stream does NOT stop after one request: it yields the
whole decoded body of EACH page and issues two requests over a two-page
sequence, where the claim ("yields the whole decoded body once and stops
after one request") demands one yield and one request. -/
theorem c5_single_yield_counterexample :
    (get_paginated_results
        [⟨true, "", [("NextToken", .str "t1"), ("Data", .str "a")]⟩,
         ⟨true, "", [("Data", .str "b")]⟩]
        [] none "NextToken").toOption.map
      (fun r => (r.1.length, r.2.length)) = some (2, 2) := rfl

/-- C6 counterexample: a non-2xx page fetch raises Python's built-in
`ValueError` carrying the raw response text — not `ServiceCallFailed`, and
not the request body. -/
theorem c6_valueerror_counterexample :
    get_partial_response ⟨false, "Internal Server Error", []⟩ "NextToken" =
      .error (.valueError "Internal Server Error") ∧
    (match get_partial_response ⟨false, "Internal Server Error", []⟩ "NextToken" with
      | .error (.serviceCallFailed _) => true
      | _ => false) = false :=
  ⟨rfl, rfl⟩

/-- C6 amended: every page fetch whose transport status is non-2xx fails,
but with a generic `ValueError` carrying the raw response text (not a
`ServiceCallFailed` carrying the request body). -/
theorem c6_page_fetch_failure (resp : HttpResponse) (marker : String)
    (h : resp.ok = false) :
    get_partial_response resp marker = .error (.valueError resp.text) := by
  simp [get_partial_response, h]

/-- Concrete instantiation of `c6_page_fetch_failure` at a 500 response. -/
theorem c6_page_fetch_failure_witness :
    get_partial_response ⟨false, "Backend Error", []⟩ "NextToken" =
      .error (.valueError "Backend Error") :=
  c6_page_fetch_failure ⟨false, "Backend Error", []⟩ "NextToken" rfl

/-! ## Update comparison (`ControlTowerAccount.has_available_update`)

Python's `float()` on the short decimal version strings the landing zone
uses (`"2.6"`, `"3.0"`, `"3.1"`, ...) is modelled as exact decimal parsing
into `ℚ`; on such strings the floating-point order coincides with the
rational order. -/

/-- Numeric value of a decimal digit character. -/
def digitVal (c : Char) : Option Nat :=
  if c.isDigit then some (c.toNat - 48) else none

/-- A non-empty all-digit character list as a natural number. -/
def parseDigits (cs : List Char) : Option Nat :=
  match cs with
  | [] => none
  | _ =>
      cs.foldl
        (fun acc c =>
          match acc, digitVal c with
          | some n, some d => some (n * 10 + d)
          | _, _ => none)
        (some 0)

/-- Splits a character list at the first `.`, keeping the remainder. -/
def breakAtDot : List Char → List Char × Option (List Char)
  | [] => ([], none)
  | c :: rest =>
      if c = '.' then ([], some rest)
      else
        let (w, f) := breakAtDot rest
        (c :: w, f)

/-- Embeds `float(s)` for the version-string grammar `digits` or
`digits.digits`, as an exact rational. -/
def parseDecimal (s : String) : Option ℚ :=
  match breakAtDot s.data with
  | (w, none) => (parseDigits w).map (fun n => (n : ℚ))
  | (w, some f) =>
      if f.contains '.' then none
      else
        match parseDigits w, parseDigits f with
        | some i, some fr => some (mkRat (i * 10 ^ f.length + fr) (10 ^ f.length))
        | _, _ => none

/-- Embeds `ControlTowerAccount.landing_zone_version`:
`self._data_.get('DeployedLandingZoneVersion')`. -/
def landing_zone_version (data : List (String × JVal)) : Option JVal :=
  lookupField data "DeployedLandingZoneVersion"

/-- Embeds `ControlTowerAccount.has_available_update`:
`float(self.landing_zone_version) < float(self.control_tower.landing_zone_version)`,
defined when both versions parse as numbers (`float()` raises otherwise,
modelled as `none`). -/
def has_available_update (data : List (String × JVal)) (towerVersion : String) :
    Option Bool :=
  match landing_zone_version data with
  | some (.str v) =>
      match parseDecimal v, parseDecimal towerVersion with
      | some a, some t => some (decide (a < t))
      | _, _ => none
  | _ => none

/-- C8: whenever the account's reported landing-zone version and the
control plane's current version both parse as numbers,
`has_available_update` is true exactly when the account's version is
strictly below the current version, and false exactly when it is equal or
greater. -/
theorem c8_update_iff_version_below (data : List (String × JVal))
    (towerVersion accountVersion : String) (a t : ℚ)
    (hv : landing_zone_version data = some (.str accountVersion))
    (ha : parseDecimal accountVersion = some a)
    (ht : parseDecimal towerVersion = some t) :
    (has_available_update data towerVersion = some true ↔ a < t) ∧
    (has_available_update data towerVersion = some false ↔ t ≤ a) := by
  constructor
  · simp [has_available_update, hv, ha, ht]
  · simp [has_available_update, hv, ha, ht, not_lt]

/-- The spec's own example instantiating `c8_update_iff_version_below`:
account version `"3.0"` against current version `"3.1"`. -/
theorem c8_update_iff_version_below_witness :
    (has_available_update [("DeployedLandingZoneVersion", .str "3.0")] "3.1" =
        some true ↔ (3 : ℚ) < mkRat 31 10) ∧
    (has_available_update [("DeployedLandingZoneVersion", .str "3.0")] "3.1" =
        some false ↔ mkRat 31 10 ≤ (3 : ℚ)) :=
  c8_update_iff_version_below [("DeployedLandingZoneVersion", .str "3.0")]
    "3.1" "3.0" 3 (mkRat 31 10) rfl (by decide) (by decide)

end ControlTowerLib
